import Mathlib

/-!
Shallow embedding of the CISO_sim simulation core (src/core/types.rs,
src/core/state.rs, src/core/decisions.rs).

Conventions:
* Rust `f64` fields are modelled as `ℚ` (exact arithmetic over the same
  algebraic operations the source performs; all constants of the source are
  decimal literals, represented exactly).
* Rust `u32` fields are modelled as `Nat`.  Where the source performs an
  unchecked `u32` subtraction that can underflow (a panic in debug builds),
  the embedding returns `Option` with `none` marking the underflow.
* Rust `HashMap`s keyed by a small enum are modelled as total functions
  (the risk-vector map is always fully populated) or as `Option`-valued
  functions for sparse maps.
* Wall-clock timestamps (`Utc::now()`) and the string-typed `metadata` map on
  audit events are presentation-only and omitted from the `Event` model.
-/

namespace CISO

/-- Opaque error taxonomy (types.rs, `GameError`). -/
inductive GameError
  | StateCorruption
  | InvalidAction
  | SystemFailure
  | InsufficientBudget
  | InsufficientPoliticalCapital
  | TeamCapacityExceeded
  | ComplianceViolation
  deriving DecidableEq, Repr

/-- The eight risk vectors (types.rs, `RiskVector`). -/
inductive RiskVector
  | DataExposure
  | AccessControl
  | Detection
  | VendorRisk
  | InsiderThreat
  | SupplyChain
  | CloudMisconfiguration
  | APIAbuse
  deriving DecidableEq, Repr

/-- The fixed enumeration of all eight risk vectors, in declaration order. -/
def allRiskVectors : List RiskVector :=
  [RiskVector.DataExposure, RiskVector.AccessControl, RiskVector.Detection,
   RiskVector.VendorRisk, RiskVector.InsiderThreat, RiskVector.SupplyChain,
   RiskVector.CloudMisconfiguration, RiskVector.APIAbuse]

/-- Per-vector risk metric (types.rs, `RiskMetric`). -/
structure RiskMetric where
  current_level : ℚ
  trend : ℚ
  time_to_critical : Option Nat
  mitigation_coverage : ℚ
  last_incident : Option Nat
  deriving DecidableEq, Repr

def RiskMetric.new : RiskMetric :=
  { current_level := 0, trend := 0, time_to_critical := none,
    mitigation_coverage := 0, last_incident := none }

/-- Aggregate risk model (types.rs, `RiskLevel`).  The `vectors` map is always
fully populated in the source, so it is modelled as a total function. -/
structure RiskLevel where
  vectors : RiskVector → RiskMetric
  total_exposure : ℚ
  risk_velocity : ℚ
  cascade_multiplier : ℚ

def RiskLevel.new : RiskLevel :=
  { vectors := fun _ => RiskMetric.new,
    total_exposure := 0, risk_velocity := 0, cascade_multiplier := 1 }

/-- Sparse per-vector change (types.rs, `RiskChange`). -/
structure RiskChange where
  level_delta : ℚ
  mitigation_delta : ℚ
  trend_delta : ℚ
  deriving DecidableEq, Repr

/-- Sparse risk delta (types.rs, `RiskDelta`); the `HashMap` is modelled as an
`Option`-valued function. -/
structure RiskDelta where
  changes : RiskVector → Option RiskChange

def RiskDelta.zero : RiskDelta := { changes := fun _ => none }

/-- Decay eligibility test from `RiskLevel::apply_decay`:
`metric.last_incident.is_none() || turn - metric.last_incident.unwrap() > 3`.
The `u32` subtraction is modelled with truncated `Nat` subtraction. -/
def decayEligible (turn : Nat) (last : Option Nat) : Bool :=
  match last with
  | none => true
  | some l => 3 < turn - l

/-- Natural decay pass (types.rs, `RiskLevel::apply_decay`): mitigation shrinks
by 5% (multiplicative) when no incident happened in the last 3 turns, and the
two background vectors grow 2% per turn with trend forced to 2. -/
def RiskLevel.applyDecay (rl : RiskLevel) (turn : Nat) : RiskLevel :=
  { rl with vectors := fun v =>
      let m := rl.vectors v
      let m :=
        if decayEligible turn m.last_incident then
          { m with mitigation_coverage := m.mitigation_coverage * 0.95 }
        else m
      match v with
      | RiskVector.CloudMisconfiguration =>
          { m with current_level := min (m.current_level * 1.02) 100, trend := 2 }
      | RiskVector.APIAbuse =>
          { m with current_level := min (m.current_level * 1.02) 100, trend := 2 }
      | _ => m }

/-- Point update of the risk-vector map (models `HashMap::get_mut` on a key
that is always present). -/
def updateVector (vectors : RiskVector → RiskMetric) (target : RiskVector)
    (f : RiskMetric → RiskMetric) : RiskVector → RiskMetric :=
  fun v => if v = target then f (vectors v) else vectors v

/-- The exposure sum `Σ level × (1 − mitigation/100)` over all eight vectors
(the fold inside `RiskLevel::calculate_cascade_effects`). -/
def exposureSum (vectors : RiskVector → RiskMetric) : ℚ :=
  (allRiskVectors.map (fun v =>
    (vectors v).current_level * (1 - (vectors v).mitigation_coverage / 100))).sum

/-- First cascade rule of `RiskLevel::calculate_cascade_effects`: access
control above 60 amplifies data exposure by 20% (clamped at 100). -/
def cascadeAccessRule (vectors : RiskVector → RiskMetric) :
    RiskVector → RiskMetric :=
  if 60 < (vectors RiskVector.AccessControl).current_level then
    updateVector vectors RiskVector.DataExposure
      (fun m => { m with current_level := min (m.current_level * 1.2) 100 })
  else vectors

/-- Second cascade rule: detection mitigation below 40 sets the global cascade
multiplier to 1.5, else 1.0. -/
def cascadeMultiplierOf (vectors : RiskVector → RiskMetric) : ℚ :=
  if (vectors RiskVector.Detection).mitigation_coverage < 40 then 1.5 else 1.0

/-- Third cascade rule: vendor risk above 50 amplifies supply chain by 15%
(clamped at 100). -/
def cascadeVendorRule (vectors : RiskVector → RiskMetric) :
    RiskVector → RiskMetric :=
  if 50 < (vectors RiskVector.VendorRisk).current_level then
    updateVector vectors RiskVector.SupplyChain
      (fun m => { m with current_level := min (m.current_level * 1.15) 100 })
  else vectors

/-- Cascade pass (types.rs, `RiskLevel::calculate_cascade_effects`), applying
the three rules in source order and recomputing the total exposure from the
amplified vectors scaled by the multiplier. -/
def RiskLevel.calculateCascadeEffects (rl : RiskLevel) : RiskLevel :=
  let v1 := cascadeAccessRule rl.vectors
  let mult := cascadeMultiplierOf v1
  let v2 := cascadeVendorRule v1
  { rl with vectors := v2, cascade_multiplier := mult,
            total_exposure := exposureSum v2 * mult }

/-- Delta application (types.rs, `RiskLevel::apply_delta`): clamp-add level and
mitigation, overwrite trend, and recompute `time_to_critical` when the delta
was risk-increasing and the new level exceeds 70.  The `as u32` cast of the
non-negative quotient is modelled by `Int.toNat ∘ Rat.floor`. -/
def RiskLevel.applyDelta (rl : RiskLevel) (delta : RiskDelta) : RiskLevel :=
  { rl with vectors := fun v =>
      match delta.changes v with
      | none => rl.vectors v
      | some c =>
        let m := rl.vectors v
        let level := min (max (m.current_level + c.level_delta) 0) 100
        let coverage := min (max (m.mitigation_coverage + c.mitigation_delta) 0) 100
        let ttc :=
          if 0 < c.level_delta ∧ 70 < level then
            some (((100 - level) / max c.trend_delta 1).floor.toNat)
          else m.time_to_critical
        { m with current_level := level, mitigation_coverage := coverage,
                 trend := c.trend_delta, time_to_critical := ttc } }

/-- Business metrics (types.rs, `BusinessMetrics`). -/
structure BusinessMetrics where
  arr_millions : ℚ
  roadmap_velocity_percent : ℚ
  customer_churn_probability : ℚ
  board_confidence_percent : ℚ
  deal_cycle_days : ℚ
  security_as_differentiator : ℚ
  regulatory_compliance_score : ℚ
  deriving DecidableEq, Repr

def BusinessMetrics.new : BusinessMetrics :=
  { arr_millions := 12.0, roadmap_velocity_percent := 100.0,
    customer_churn_probability := 5.0, board_confidence_percent := 70.0,
    deal_cycle_days := 45.0, security_as_differentiator := 30.0,
    regulatory_compliance_score := 40.0 }

/-- Business impact delta (types.rs, `BusinessDelta`). -/
structure BusinessDelta where
  arr_change : ℚ
  velocity_change : ℚ
  churn_change : ℚ
  confidence_change : ℚ
  deal_cycle_change : ℚ
  differentiator_change : ℚ
  compliance_change : ℚ
  deriving DecidableEq, Repr

def BusinessDelta.zero : BusinessDelta :=
  { arr_change := 0, velocity_change := 0, churn_change := 0,
    confidence_change := 0, deal_cycle_change := 0,
    differentiator_change := 0, compliance_change := 0 }

/-- Clamped delta application (types.rs, `BusinessMetrics::apply_delta`). -/
def BusinessMetrics.applyDelta (b : BusinessMetrics) (d : BusinessDelta) :
    BusinessMetrics :=
  { arr_millions := max (b.arr_millions + d.arr_change) 0,
    roadmap_velocity_percent := max (b.roadmap_velocity_percent + d.velocity_change) 0,
    customer_churn_probability :=
      min (max (b.customer_churn_probability + d.churn_change) 0) 100,
    board_confidence_percent :=
      min (max (b.board_confidence_percent + d.confidence_change) 0) 100,
    deal_cycle_days := max (b.deal_cycle_days + d.deal_cycle_change) 1,
    security_as_differentiator :=
      min (max (b.security_as_differentiator + d.differentiator_change) 0) 100,
    regulatory_compliance_score :=
      min (max (b.regulatory_compliance_score + d.compliance_change) 0) 100 }

/-- Board member roles (types.rs, `BoardMemberRole`). -/
inductive BoardMemberRole
  | CEO
  | CFO
  | CTO
  | COO
  | GeneralCounsel
  | BoardChair
  deriving DecidableEq, Repr

inductive BoardPersonality
  | RiskAverse
  | DataDriven
  | PoliticallyShrewd
  | TechnicallyMinded
  | BottomLineFocused
  deriving DecidableEq, Repr

inductive BoardPriority
  | GrowthAtAllCosts
  | RiskMitigation
  | CostReduction
  | ComplianceFirst
  | CustomerTrust
  | IpoPreparation
  deriving DecidableEq, Repr

/-- Political capital ledger (types.rs, `PoliticalCapital`). -/
structure PoliticalCapital where
  total : ℚ
  ceo_favor : ℚ
  cto_relationship : ℚ
  cfo_trust : ℚ
  earned_this_quarter : ℚ
  spent_this_quarter : ℚ
  deriving DecidableEq, Repr

def PoliticalCapital.new : PoliticalCapital :=
  { total := 50.0, ceo_favor := 60.0, cto_relationship := 40.0,
    cfo_trust := 45.0, earned_this_quarter := 0, spent_this_quarter := 0 }

def PoliticalCapital.canSpend (p : PoliticalCapital) (amount : ℚ) : Bool :=
  amount ≤ p.total

/-- Spend political capital (types.rs, `PoliticalCapital::spend`); `none`
models the `false` return, on which the source leaves the ledger untouched. -/
def PoliticalCapital.spend (p : PoliticalCapital) (amount : ℚ)
    (target : Option BoardMemberRole) : Option PoliticalCapital :=
  if p.canSpend amount then
    let p := { p with total := p.total - amount,
                      spent_this_quarter := p.spent_this_quarter + amount }
    some (match target with
      | some BoardMemberRole.CEO =>
          { p with ceo_favor := min (p.ceo_favor + amount * 0.5) 100 }
      | some BoardMemberRole.CTO =>
          { p with cto_relationship := min (p.cto_relationship + amount * 0.5) 100 }
      | some BoardMemberRole.CFO =>
          { p with cfo_trust := min (p.cfo_trust + amount * 0.5) 100 }
      | _ => p)
  else none

/-- Earn political capital (types.rs, `PoliticalCapital::earn`); the source
ignores its `source` string argument. -/
def PoliticalCapital.earn (p : PoliticalCapital) (amount : ℚ) (_source : String) :
    PoliticalCapital :=
  { p with total := min (p.total + amount) 100,
           earned_this_quarter := p.earned_this_quarter + amount }

/-- Security-team ledger (types.rs, `SecurityTeam`/`TeamMember`). -/
inductive SecurityRole
  | SecurityEngineer
  | IncidentResponder
  | ComplianceAnalyst
  | SecurityArchitect
  | ThreatIntelligence
  | AppSec
  | CloudSecurity
  deriving DecidableEq, Repr

structure TeamMember where
  name : String
  role : SecurityRole
  skill_level : ℚ
  capacity : ℚ
  burnout_level : ℚ
  tenure_turns : Nat
  deriving DecidableEq, Repr

structure SecurityTeam where
  members : List TeamMember
  total_capacity : ℚ
  committed_capacity : ℚ
  morale : ℚ
  attrition_risk : ℚ
  deriving DecidableEq, Repr

def SecurityTeam.new : SecurityTeam :=
  { members :=
      [{ name := "Sarah Chen", role := SecurityRole.SecurityEngineer,
         skill_level := 75.0, capacity := 10.0, burnout_level := 60.0,
         tenure_turns := 8 },
       { name := "Marcus Rodriguez", role := SecurityRole.IncidentResponder,
         skill_level := 65.0, capacity := 8.0, burnout_level := 45.0,
         tenure_turns := 4 }],
    total_capacity := 18.0, committed_capacity := 12.0,
    morale := 45.0, attrition_risk := 35.0 }

def SecurityTeam.availableCapacity (t : SecurityTeam) : ℚ :=
  t.total_capacity - t.committed_capacity

/-- Capacity allocation (types.rs, `SecurityTeam::allocate_capacity`); `none`
models the `false` return. -/
def SecurityTeam.allocateCapacity (t : SecurityTeam) (amount : ℚ) :
    Option SecurityTeam :=
  if amount ≤ t.availableCapacity then
    some { t with committed_capacity := t.committed_capacity + amount }
  else none

/-- Compliance frameworks (types.rs, `ComplianceFramework`). -/
inductive ComplianceFramework
  | SOC2
  | ISO27001
  | GDPR
  | HIPAA
  | PciDss
  | CCPA
  | StateBreachLaws
  deriving DecidableEq, Repr

structure FrameworkStatus where
  compliance_percent : ℚ
  certification_date : Option Nat
  next_audit : Nat
  control_gaps : List String
  deriving DecidableEq, Repr

inductive FindingSeverity
  | Critical
  | High
  | Medium
  | Low
  | Informational
  deriving DecidableEq, Repr

inductive FindingStatus
  | Open
  | InProgress
  | Resolved
  | Accepted
  | Ignored
  deriving DecidableEq, Repr

structure ComplianceFinding where
  id : String
  framework : ComplianceFramework
  severity : FindingSeverity
  description : String
  discovered_turn : Nat
  remediation_deadline : Nat
  status : FindingStatus
  deriving DecidableEq, Repr

structure ScheduledAudit where
  framework : ComplianceFramework
  turn : Nat
  auditor : String
  deriving DecidableEq, Repr

/-- Compliance state (types.rs, `ComplianceStatus`); the framework `HashMap`
is sparse and modelled as an `Option`-valued function. -/
structure ComplianceStatus where
  frameworks : ComplianceFramework → Option FrameworkStatus
  audit_schedule : List ScheduledAudit
  open_findings : List ComplianceFinding

def ComplianceStatus.new : ComplianceStatus :=
  { frameworks := fun f =>
      match f with
      | ComplianceFramework.SOC2 =>
          some { compliance_percent := 40.0, certification_date := none,
                 next_audit := 8,
                 control_gaps :=
                   ["Access reviews not performed",
                    "Change management process incomplete",
                    "Incident response plan not tested"] }
      | _ => none,
    audit_schedule := [], open_findings := [] }

/-- Incident severities (types.rs, `IncidentSeverity`). -/
inductive IncidentSeverity
  | Low
  | Medium
  | High
  | Critical
  deriving DecidableEq, Repr

structure NarrativeInconsistency where
  turn : Nat
  description : String
  severity : ℚ
  evidence_trail : List String
  deriving DecidableEq, Repr

structure BuriedIncident where
  incident_id : String
  actual_severity : IncidentSeverity
  reported_severity : IncidentSeverity
  turn_occurred : Nat
  turn_disclosed : Option Nat
  burial_method : String
  deriving DecidableEq, Repr

structure DelayedEscalation where
  incident_id : String
  should_have_escalated_turn : Nat
  actually_escalated_turn : Nat
  delay_justification : String
  deriving DecidableEq, Repr

structure TimelineGap where
  start_turn : Nat
  end_turn : Nat
  missing_context : String
  deriving DecidableEq, Repr

/-- Narrative-integrity state (types.rs, `NarrativeIntegrity`). -/
structure NarrativeIntegrity where
  score : ℚ
  inconsistencies : List NarrativeInconsistency
  buried_incidents : List BuriedIncident
  delayed_escalations : List DelayedEscalation
  timeline_gaps : List TimelineGap
  deriving DecidableEq, Repr

def NarrativeIntegrity.new : NarrativeIntegrity :=
  { score := 100.0, inconsistencies := [], buried_incidents := [],
    delayed_escalations := [], timeline_gaps := [] }

/-- types.rs, `NarrativeIntegrity::record_inconsistency`. -/
def NarrativeIntegrity.record_inconsistency (n : NarrativeIntegrity)
    (turn : Nat) (description : String) (severity : ℚ) : NarrativeIntegrity :=
  { n with score := max (n.score - severity) 0,
           inconsistencies := n.inconsistencies ++
             [{ turn := turn, description := description, severity := severity,
                evidence_trail := [] }] }

/-- types.rs, `NarrativeIntegrity::severity_to_score` (ignores `self`). -/
def severityToScore (sev : IncidentSeverity) : ℚ :=
  match sev with
  | IncidentSeverity.Low => 1.0
  | IncidentSeverity.Medium => 2.0
  | IncidentSeverity.High => 3.0
  | IncidentSeverity.Critical => 4.0

/-- types.rs, `NarrativeIntegrity::bury_incident`. -/
def NarrativeIntegrity.bury_incident (n : NarrativeIntegrity)
    (incident_id : String) (actual reported : IncidentSeverity)
    (turn : Nat) (method : String) : NarrativeIntegrity :=
  let severityGap := severityToScore actual - severityToScore reported
  { n with score := max (n.score - severityGap * 10) 0,
           buried_incidents := n.buried_incidents ++
             [{ incident_id := incident_id, actual_severity := actual,
                reported_severity := reported, turn_occurred := turn,
                turn_disclosed := none, burial_method := method }] }

/-- types.rs, `NarrativeIntegrity::delay_escalation`.  The source computes
`actually - should_have` with an unchecked `u32` subtraction; `none` marks the
underflow (a panic in debug builds). -/
def NarrativeIntegrity.delayEscalation (n : NarrativeIntegrity)
    (incident_id : String) (should_have actually : Nat)
    (justification : String) : Option NarrativeIntegrity :=
  if should_have ≤ actually then
    let delayTurns := actually - should_have
    some { n with score := max (n.score - (delayTurns : ℚ) * 5) 0,
                  delayed_escalations := n.delayed_escalations ++
                    [{ incident_id := incident_id,
                       should_have_escalated_turn := should_have,
                       actually_escalated_turn := actually,
                       delay_justification := justification }] }
  else none

/-- types.rs, `NarrativeIntegrity::get_multiplier`. -/
def NarrativeIntegrity.getMultiplier (n : NarrativeIntegrity) : ℚ :=
  if 85 < n.score then 1.0
  else if 50 < n.score then 1.8
  else 3.2

/-- types.rs, `NarrativeIntegrity::criminal_exposure`:
`score < 30.0 && buried_incidents.len() > 2`. -/
def NarrativeIntegrity.criminalExposure (n : NarrativeIntegrity) : Bool :=
  decide (n.score < 30) && decide (2 < n.buried_incidents.length)

/-- Budget ledger (types.rs, `Budget`). -/
structure Budget where
  total_annual : ℚ
  spent : ℚ
  committed : ℚ
  headcount_budget : ℚ
  tooling_budget : ℚ
  project_budget : ℚ
  emergency_reserve : ℚ
  deriving DecidableEq, Repr

inductive BudgetCategory
  | Headcount
  | Tooling
  | Project
  | Emergency
  deriving DecidableEq, Repr

def Budget.new : Budget :=
  { total_annual := 2.5, spent := 0, committed := 0.8,
    headcount_budget := 1.2, tooling_budget := 0.6,
    project_budget := 0.4, emergency_reserve := 0.3 }

def Budget.available (b : Budget) : ℚ :=
  b.total_annual - b.spent - b.committed

def Budget.categoryBudget (b : Budget) (category : BudgetCategory) : ℚ :=
  match category with
  | BudgetCategory.Headcount => b.headcount_budget
  | BudgetCategory.Tooling => b.tooling_budget
  | BudgetCategory.Project => b.project_budget
  | BudgetCategory.Emergency => b.emergency_reserve

/-- types.rs, `Budget::can_spend`: both the total available budget and the
category-specific budget must cover the amount. -/
def Budget.canSpend (b : Budget) (amount : ℚ) (category : BudgetCategory) : Bool :=
  decide (amount ≤ b.available) && decide (amount ≤ b.categoryBudget category)

/-- types.rs, `Budget::spend`; `none` models the `false` return, on which the
source leaves the ledger untouched. -/
def Budget.spend (b : Budget) (amount : ℚ) (category : BudgetCategory) :
    Option Budget :=
  if b.canSpend amount category then
    let b := { b with spent := b.spent + amount }
    some (match category with
      | BudgetCategory.Headcount =>
          { b with headcount_budget := b.headcount_budget - amount }
      | BudgetCategory.Tooling =>
          { b with tooling_budget := b.tooling_budget - amount }
      | BudgetCategory.Project =>
          { b with project_budget := b.project_budget - amount }
      | BudgetCategory.Emergency =>
          { b with emergency_reserve := b.emergency_reserve - amount })
  else none

/-- Threat landscape (types.rs, `ThreatLandscape`); the random `evolve` pass is
not needed by the verified operations. -/
inductive ThreatLevel
  | Baseline
  | Elevated
  | High
  | Severe
  deriving DecidableEq, Repr

structure ThreatCampaign where
  id : String
  threat_actor : String
  target_industry : String
  active_since_turn : Nat
  techniques : List String
  deriving DecidableEq, Repr

structure IndustryBreach where
  company : String
  turn : Nat
  impact : String
  root_cause : String
  deriving DecidableEq, Repr

inductive ExploitStatus
  | PoCAvailable
  | ActivelyExploited
  | Weaponized
  deriving DecidableEq, Repr

structure ThreatLandscape where
  current_threat_level : ThreatLevel
  active_campaigns : List ThreatCampaign
  industry_breaches : List IndustryBreach
  exploit_availability : List (String × ExploitStatus)
  deriving DecidableEq, Repr

def ThreatLandscape.new : ThreatLandscape :=
  { current_threat_level := ThreatLevel.Baseline, active_campaigns := [],
    industry_breaches := [], exploit_availability := [] }

/-- Audit-trail classification (types.rs, `AuditTrail`). -/
inductive AuditTrail
  | Clean
  | Flagged
  | Toxic
  deriving DecidableEq, Repr

structure ReputationDelta where
  industry_delta : ℚ
  board_delta : ℚ
  team_delta : ℚ
  vendor_delta : ℚ
  deriving DecidableEq, Repr

/-- Compliance impact of a decision (types.rs, `ComplianceImpact`); the
progress `HashMap` is modelled as an `Option`-valued function. -/
structure ComplianceImpact where
  framework_progress : ComplianceFramework → Option ℚ
  new_findings : List ComplianceFinding
  resolved_findings : List String

structure NarrativeImpact where
  integrity_penalty : ℚ
  creates_inconsistency : Bool
  buries_incident : Option (String × IncidentSeverity × IncidentSeverity)
  delays_escalation : Option (String × Nat)
  reason : String

/-- Full authoritative decision impact (types.rs, `DecisionImpact`). -/
structure DecisionImpact where
  decision_id : String
  risk_delta : RiskDelta
  business_delta : BusinessDelta
  budget_cost : ℚ
  budget_category : BudgetCategory
  political_capital_cost : ℚ
  political_capital_gain : ℚ
  team_capacity_required : ℚ
  reputation_impact : ReputationDelta
  compliance_impact : ComplianceImpact
  narrative_impact : Option NarrativeImpact
  audit_trail : AuditTrail

/-- types.rs, `DecisionImpact::new`: the all-zero impact. -/
def DecisionImpact.new (id : String) : DecisionImpact :=
  { decision_id := id, risk_delta := RiskDelta.zero,
    business_delta := BusinessDelta.zero, budget_cost := 0,
    budget_category := BudgetCategory.Project, political_capital_cost := 0,
    political_capital_gain := 0, team_capacity_required := 0,
    reputation_impact :=
      { industry_delta := 0, board_delta := 0, team_delta := 0, vendor_delta := 0 },
    compliance_impact :=
      { framework_progress := fun _ => none, new_findings := [],
        resolved_findings := [] },
    narrative_impact := none, audit_trail := AuditTrail.Clean }

/-- Board member (types.rs, `BoardMember`). -/
structure BoardMember where
  role : BoardMemberRole
  name : String
  personality : BoardPersonality
  current_priority : BoardPriority
  satisfaction : ℚ
  influence : ℚ

/-- types.rs, `BoardMember::react_to_decision` (the returned delta is ignored
by the caller in state.rs, so only the updated member is modelled). -/
def BoardMember.reactToDecision (b : BoardMember) (impact : DecisionImpact) :
    BoardMember :=
  let satisfactionDelta : ℚ :=
    match b.current_priority with
    | BoardPriority.GrowthAtAllCosts =>
        impact.business_delta.arr_change * 2.0 +
        impact.business_delta.velocity_change * 0.5
    | BoardPriority.CostReduction => -(impact.budget_cost * 5.0)
    | BoardPriority.RiskMitigation =>
        ((allRiskVectors.map (fun v =>
          match impact.risk_delta.changes v with
          | some c => -c.level_delta + c.mitigation_delta * 0.5
          | none => 0)).sum) * 3.0
    | BoardPriority.ComplianceFirst =>
        impact.business_delta.compliance_change * 4.0
    | BoardPriority.CustomerTrust =>
        -(impact.business_delta.churn_change * 3.0)
    | BoardPriority.IpoPreparation =>
        impact.business_delta.compliance_change * 2.0 -
        impact.business_delta.churn_change * 2.0
  { b with satisfaction := min (max (b.satisfaction + satisfactionDelta) 0) 100 }

/-- Reputation axes (types.rs, `Reputation`). -/
structure Reputation where
  industry_standing : ℚ
  board_credibility : ℚ
  team_morale : ℚ
  vendor_relationships : ℚ
  deriving DecidableEq, Repr

def Reputation.new : Reputation :=
  { industry_standing := 60.0, board_credibility := 75.0,
    team_morale := 50.0, vendor_relationships := 40.0 }

structure Player where
  name : String
  company_name : String
  previous_role : String
  reputation : Reputation
  deriving DecidableEq, Repr

def Player.new (name company_name previous_role : String) : Player :=
  { name := name, company_name := company_name,
    previous_role := previous_role, reputation := Reputation.new }

/-- Audit-event visibility (state.rs, `EventVisibility`). -/
inductive EventVisibility
  | Internal
  | Management
  | Board
  | Public
  | Buried
  deriving DecidableEq, Repr

inductive EventType
  | GameStart
  | DecisionMade
  | RiskMaterialized
  | BoardPressure
  | ComplianceAudit
  | IncidentDetected
  | IncidentEscalated
  | IncidentResolved
  | QuarterEnd
  | BoardReview
  | TeamMemberDeparted
  | TeamMemberHired
  | ComplianceFindingOpened
  | ComplianceFindingClosed
  | PoliticalCapitalSpent
  | ReputationChange
  | GameEnd
  deriving DecidableEq, Repr

/-- Audit-log entry (state.rs, `Event`); the wall-clock `timestamp` and the
derived string `metadata` map are omitted (presentation-only). -/
structure Event where
  turn : Nat
  event_type : EventType
  description : String
  decision_id : Option String
  visibility : EventVisibility
  deriving DecidableEq, Repr

inductive Ending
  | GoldenCISO
  | LawsuitSurvivor
  | PostBreachCleanup
  | CriminalInvestigation
  deriving DecidableEq, Repr

inductive GamePhase
  | InheritanceDisaster
  | OperationalTempo
  | Discovery
  | Ended (ending : Ending)
  deriving DecidableEq, Repr

inductive IncidentResponseStatus
  | Detected
  | Investigating
  | Containing
  | Eradicating
  | Recovering
  | PostMortem
  | Closed
  deriving DecidableEq, Repr

structure IncidentTimelineEntry where
  turn : Nat
  action : String
  actor : String
  visibility : EventVisibility
  deriving DecidableEq, Repr

/-- Active incident record (state.rs, `ActiveIncident`). -/
structure ActiveIncident where
  id : String
  title : String
  description : String
  severity : IncidentSeverity
  turn_detected : Nat
  turn_deadline : Option Nat
  escalated_to_board : Bool
  escalation_turn : Option Nat
  response_status : IncidentResponseStatus
  assigned_team : List String
  capacity_consumed : ℚ
  containment_percent : ℚ
  root_cause_identified : Bool
  public_disclosure_required : Bool
  customer_impact_count : Option Nat
  timeline : List IncidentTimelineEntry
  deriving DecidableEq, Repr

structure ResolvedIncident where
  id : String
  original_incident : String
  resolution_turn : Nat
  time_to_resolve : Nat
  lessons_learned : List String
  follow_up_actions : List String
  final_cost : ℚ
  reputation_impact : ℚ
  deriving DecidableEq, Repr

inductive ObjectivePriority
  | Critical
  | High
  | Medium
  | Low
  deriving DecidableEq, Repr

structure Objective where
  id : String
  description : String
  assigned_quarter : Nat
  priority : ObjectivePriority
  progress : ℚ
  completion_turn : Option Nat
  assigned_by : BoardMemberRole
  deriving DecidableEq, Repr

inductive DebtCategory
  | UnpatchedSystems
  | LegacyAccess
  | UndocumentedProcesses
  | ToolingGaps
  | ArchitecturalFlaws
  | ComplianceGaps
  deriving DecidableEq, Repr

/-- Technical-debt ledger (state.rs, `TechnicalDebt`); the category `HashMap`
is modelled as a total function with missing entries at 0. -/
structure TechnicalDebt where
  total_debt_points : ℚ
  debt_velocity : ℚ
  categories : DebtCategory → ℚ
  oldest_debt_age_turns : Nat

def TechnicalDebt.new : TechnicalDebt :=
  { total_debt_points := 180.0, debt_velocity := 5.0,
    categories := fun c =>
      match c with
      | DebtCategory.UnpatchedSystems => 40.0
      | DebtCategory.LegacyAccess => 30.0
      | DebtCategory.UndocumentedProcesses => 25.0
      | DebtCategory.ToolingGaps => 35.0
      | DebtCategory.ArchitecturalFlaws => 20.0
      | DebtCategory.ComplianceGaps => 30.0,
    oldest_debt_age_turns := 12 }

/-- Root aggregate (state.rs, `GameState`). -/
structure GameState where
  player : Player
  turn : Nat
  quarter : Nat
  risk : RiskLevel
  business : BusinessMetrics
  narrative : NarrativeIntegrity
  budget : Budget
  political_capital : PoliticalCapital
  team : SecurityTeam
  compliance : ComplianceStatus
  threat_landscape : ThreatLandscape
  board : List BoardMember
  events : List Event
  decisions_made : List String
  active_incidents : List ActiveIncident
  resolved_incidents : List ResolvedIncident
  phase : GamePhase
  quarterly_objectives : List Objective
  technical_debt : TechnicalDebt

/-- state.rs, `GameState::initialize_board`. -/
def startingBoard : List BoardMember :=
  [{ role := BoardMemberRole.CEO, name := "Jennifer Walsh",
     personality := BoardPersonality.PoliticallyShrewd,
     current_priority := BoardPriority.GrowthAtAllCosts,
     satisfaction := 70.0, influence := 95.0 },
   { role := BoardMemberRole.CFO, name := "David Park",
     personality := BoardPersonality.BottomLineFocused,
     current_priority := BoardPriority.CostReduction,
     satisfaction := 60.0, influence := 80.0 },
   { role := BoardMemberRole.CTO, name := "Alex Thompson",
     personality := BoardPersonality.TechnicallyMinded,
     current_priority := BoardPriority.RiskMitigation,
     satisfaction := 50.0, influence := 75.0 },
   { role := BoardMemberRole.GeneralCounsel, name := "Maria Rodriguez",
     personality := BoardPersonality.RiskAverse,
     current_priority := BoardPriority.ComplianceFirst,
     satisfaction := 55.0, influence := 70.0 }]

/-- state.rs, `GameState::initial_objectives`. -/
def initialObjectives : List Objective :=
  [{ id := "soc2_cert",
     description := "Achieve SOC2 Type II certification within 2 quarters",
     assigned_quarter := 1, priority := ObjectivePriority.Critical,
     progress := 0, completion_turn := none,
     assigned_by := BoardMemberRole.CEO },
   { id := "reduce_incidents",
     description := "Reduce security incidents by 40%",
     assigned_quarter := 1, priority := ObjectivePriority.High,
     progress := 0, completion_turn := none,
     assigned_by := BoardMemberRole.CTO }]

/-- state.rs, `GameState::new`.  The source flips a random coin to pick the
previous CISO name in the opening audit event; the coin is an explicit
parameter here. -/
def GameState.new (player : Player) (coin : Bool) : GameState :=
  { player := player, turn := 1, quarter := 1,
    risk := RiskLevel.new, business := BusinessMetrics.new,
    narrative := NarrativeIntegrity.new, budget := Budget.new,
    political_capital := PoliticalCapital.new, team := SecurityTeam.new,
    compliance := ComplianceStatus.new, threat_landscape := ThreatLandscape.new,
    board := startingBoard,
    events :=
      [{ turn := 0, event_type := EventType.GameStart,
         description :=
           player.name ++ " appointed as CISO of " ++ player.company_name ++
           ". Previous CISO " ++ (if coin then "Richard" else "Susan") ++
           " left to pursue other opportunities. Exit interview mentions: " ++
           "Board expectations unrealistic, Budget insufficient, " ++
           "Nobody listened until after the breach.",
         decision_id := none, visibility := EventVisibility.Management }],
    decisions_made := [], active_incidents := [], resolved_incidents := [],
    phase := GamePhase.InheritanceDisaster,
    quarterly_objectives := initialObjectives,
    technical_debt := TechnicalDebt.new }

/-- state.rs, `GameState::add_event` (timestamp and metadata omitted as above). -/
def GameState.addEvent (s : GameState) (event_type : EventType)
    (description : String) (decision_id : Option String)
    (visibility : EventVisibility) : GameState :=
  { s with events := s.events ++
      [{ turn := s.turn, event_type := event_type, description := description,
         decision_id := decision_id, visibility := visibility }] }

/-- state.rs, `GameState::calculate_ending`: the strict priority chain
criminal investigation → golden CISO → post-breach cleanup → lawsuit survivor. -/
def GameState.calculateEnding (s : GameState) : Ending :=
  let criticalIncidents :=
    (s.active_incidents.filter
      (fun i => i.severity = IncidentSeverity.Critical)).length
  let unresolvedCritical :=
    (s.active_incidents.filter
      (fun i => i.severity = IncidentSeverity.Critical ∧
                ¬ i.response_status = IncidentResponseStatus.Closed)).length
  let narrativeScore := s.narrative.score
  let businessHealth :=
    10 < s.business.arr_millions ∧ 50 < s.business.board_confidence_percent
  let complianceScore :=
    match s.compliance.frameworks ComplianceFramework.SOC2 with
    | some f => f.compliance_percent
    | none => 0
  if s.narrative.criminalExposure then Ending.CriminalInvestigation
  else if criticalIncidents = 0 ∧ 85 < narrativeScore ∧ businessHealth ∧
          s.risk.total_exposure < 150 ∧ 90 < complianceScore ∧
          (∀ b ∈ s.board, 70 < b.satisfaction) then Ending.GoldenCISO
  else if 0 < unresolvedCritical ∨ narrativeScore < 50 ∨
          s.business.board_confidence_percent < 30 then Ending.PostBreachCleanup
  else Ending.LawsuitSurvivor

/-- The narrative-effect block of state.rs, `GameState::apply_decision_impact`
(lines 609-638): direct score penalty, optional inconsistency record, optional
incident burial, optional escalation delay.  The source computes the
should-have turn as the unchecked `u32` subtraction `self.turn - delay_turns`;
`none` marks that underflow. -/
def applyNarrativeImpactState (n : NarrativeIntegrity) (turn : Nat)
    (ni? : Option NarrativeImpact) : Option NarrativeIntegrity :=
  match ni? with
  | none => some n
  | some ni =>
    let n := { n with score := max (n.score - ni.integrity_penalty) 0 }
    let n :=
      if ni.creates_inconsistency then
        n.record_inconsistency turn ni.reason ni.integrity_penalty
      else n
    let n :=
      match ni.buries_incident with
      | some (incId, actual, reported) =>
          n.bury_incident incId actual reported turn ni.reason
      | none => n
    match ni.delays_escalation with
    | some (incId, delayTurns) =>
        if delayTurns ≤ turn then
          n.delayEscalation incId (turn - delayTurns) turn ni.reason
        else none
    | none => some n

/-- state.rs, `GameState::apply_decision_impact`.  Every ledger operation whose
boolean result the source drops is modelled with `Option.getD` (mutation only
on success); `none` for the whole call marks the `u32` underflow in the
escalation-delay branch. -/
def GameState.applyDecisionImpact (s : GameState) (impact : DecisionImpact) :
    Option GameState :=
  let risk := s.risk.applyDelta impact.risk_delta
  let business := s.business.applyDelta impact.business_delta
  let rep := s.player.reputation
  let rep :=
    { industry_standing :=
        min (max (rep.industry_standing + impact.reputation_impact.industry_delta) 0) 100,
      board_credibility :=
        min (max (rep.board_credibility + impact.reputation_impact.board_delta) 0) 100,
      team_morale :=
        min (max (rep.team_morale + impact.reputation_impact.team_delta) 0) 100,
      vendor_relationships :=
        min (max (rep.vendor_relationships + impact.reputation_impact.vendor_delta) 0) 100 }
  let team :=
    if 0 < impact.team_capacity_required then
      (s.team.allocateCapacity impact.team_capacity_required).getD s.team
    else s.team
  let pc :=
    if 0 < impact.political_capital_cost then
      (s.political_capital.spend impact.political_capital_cost none).getD
        s.political_capital
    else s.political_capital
  let pc :=
    if 0 < impact.political_capital_gain then
      pc.earn impact.political_capital_gain impact.decision_id
    else pc
  let budget :=
    if 0 < impact.budget_cost then
      (s.budget.spend impact.budget_cost impact.budget_category).getD s.budget
    else s.budget
  let compliance :=
    { s.compliance with frameworks := fun f =>
        match s.compliance.frameworks f, impact.compliance_impact.framework_progress f with
        | some st, some progress =>
            let pct := min (max (st.compliance_percent + progress) 0) 100
            some { st with compliance_percent := pct }
        | some st, none => some st
        | none, _ => none }
  match applyNarrativeImpactState s.narrative s.turn impact.narrative_impact with
  | none => none
  | some narrative =>
    some { s with
      risk := risk, business := business,
      player := { s.player with reputation := rep },
      team := team, political_capital := pc, budget := budget,
      compliance := compliance, narrative := narrative,
      board := s.board.map (fun b => b.reactToDecision impact),
      decisions_made := s.decisions_made ++ [impact.decision_id] }

/-- Decision categories (decisions.rs, `DecisionCategory`). -/
inductive DecisionCategory
  | StrategicDirection
  | IncidentResponse
  | BudgetAllocation
  | ComplianceApproach
  | TeamManagement
  | VendorSelection
  | RiskAcceptance
  | PoliticalNavigation
  deriving DecidableEq, Repr

/-- Per-choice prerequisites (decisions.rs, `ChoicePrerequisites`). -/
structure ChoicePrerequisites where
  min_budget : ℚ
  min_political_capital : ℚ
  min_team_capacity : ℚ
  required_compliance : List ComplianceFramework
  blocked_by : List String
  deriving DecidableEq, Repr

def ChoicePrerequisites.default : ChoicePrerequisites :=
  { min_budget := 0, min_political_capital := 0, min_team_capacity := 0,
    required_compliance := [], blocked_by := [] }

inductive RiskIndicator
  | Reduces
  | Neutral
  | Increases
  | Significant
  deriving DecidableEq, Repr

/-- Player-visible estimate (decisions.rs, `ImpactPreview`). -/
structure ImpactPreview where
  estimated_arr_change : ℚ
  budget_cost : ℚ
  timeline_weeks : Option Nat
  political_note : Option String
  risk_indicator : RiskIndicator
  compliance_impact : ComplianceImpact
  team_impact : String

/-- Delayed consequence of a choice (decisions.rs, `DelayedConsequence`). -/
structure DelayedConsequence where
  trigger_turn : Nat
  event_type : EventType
  description : String
  additional_impact : Option DecisionImpact

/-- A selectable choice (decisions.rs, `Choice`). -/
structure Choice where
  id : String
  label : String
  description : String
  impact_preview : ImpactPreview
  impact_data : Option DecisionImpact
  prerequisites : ChoicePrerequisites
  consequences : List DelayedConsequence

/-- A decision point (decisions.rs, `Decision`). -/
structure Decision where
  id : String
  turn : Nat
  title : String
  context : String
  choices : List Choice
  is_board_pressure : Bool
  is_time_sensitive : Bool
  decision_category : DecisionCategory
  prerequisites : List String

/-- The narrative-effect block of decisions.rs, `Decision::apply_choice`
(lines 160-183): direct score penalty, optional incident burial, optional
escalation delay recorded from the current turn to `turn + delay_turns`.
Since `actually = turn + delay_turns ≥ turn = should_have`, the checked
subtraction inside `delayEscalation` never underflows here and `getD` merely
discharges the impossible branch. -/
def NarrativeIntegrity.applyChoiceNarrative (n : NarrativeIntegrity)
    (turn : Nat) (ni? : Option NarrativeImpact) : NarrativeIntegrity :=
  match ni? with
  | none => n
  | some ni =>
    let n := { n with score := max (n.score - ni.integrity_penalty) 0 }
    let n :=
      match ni.buries_incident with
      | some (incId, actual, reported) =>
          n.bury_incident incId actual reported turn ni.reason
      | none => n
    match ni.delays_escalation with
    | some (incId, delayTurns) =>
        (n.delayEscalation incId turn (turn + delayTurns) ni.reason).getD n
    | none => n

/-- decisions.rs, `Decision::apply_choice`.  Returns the `Result` together
with the (possibly partially mutated) state: on an error return the source has
already committed every mutation made before the failing step. -/
def Decision.applyChoice (d : Decision) (choiceId : String) (s : GameState) :
    Except GameError DecisionImpact × GameState :=
  match d.choices.find? (fun c => c.id == choiceId) with
  | none => (Except.error GameError.InvalidAction, s)
  | some choice =>
    if 0 < choice.prerequisites.min_budget ∧
       s.budget.available < choice.prerequisites.min_budget then
      (Except.error GameError.InsufficientBudget, s)
    else if 0 < choice.prerequisites.min_political_capital ∧
            s.political_capital.total < choice.prerequisites.min_political_capital then
      (Except.error GameError.InsufficientPoliticalCapital, s)
    else if 0 < choice.prerequisites.min_team_capacity ∧
            s.team.availableCapacity < choice.prerequisites.min_team_capacity then
      (Except.error GameError.TeamCapacityExceeded, s)
    else
      let impact := choice.impact_data.getD (DecisionImpact.new choice.id)
      let s := { s with risk := s.risk.applyDelta impact.risk_delta }
      let s := { s with business := s.business.applyDelta impact.business_delta }
      match (if 0 < impact.budget_cost then
                    s.budget.spend impact.budget_cost impact.budget_category
                  else some s.budget) with
      | none => (Except.error GameError.InsufficientBudget, s)
      | some budget =>
        let s := { s with budget := budget }
        match (if 0 < impact.political_capital_cost then
                      s.political_capital.spend impact.political_capital_cost none
                    else some s.political_capital) with
        | none => (Except.error GameError.InsufficientPoliticalCapital, s)
        | some pc =>
          let pc :=
            if 0 < impact.political_capital_gain then
              pc.earn impact.political_capital_gain ("Decision: " ++ d.title)
            else pc
          let s := { s with political_capital := pc }
          match (if 0 < impact.team_capacity_required then
                        s.team.allocateCapacity impact.team_capacity_required
                      else some s.team) with
          | none => (Except.error GameError.TeamCapacityExceeded, s)
          | some team =>
            let s := { s with team := team }
            let rep := s.player.reputation
            let rep :=
              { industry_standing :=
                  rep.industry_standing + impact.reputation_impact.industry_delta,
                board_credibility :=
                  rep.board_credibility + impact.reputation_impact.board_delta,
                team_morale :=
                  rep.team_morale + impact.reputation_impact.team_delta,
                vendor_relationships :=
                  rep.vendor_relationships + impact.reputation_impact.vendor_delta }
            let s := { s with player := { s.player with reputation := rep } }
            let s := { s with compliance :=
              { s.compliance with frameworks := fun f =>
                  match s.compliance.frameworks f,
                        impact.compliance_impact.framework_progress f with
                  | some st, some progress =>
                      let pct := st.compliance_percent + progress
                      some { st with compliance_percent := pct }
                  | some st, none => some st
                  | none, _ => none } }
            let s := { s with narrative :=
              s.narrative.applyChoiceNarrative s.turn impact.narrative_impact }
            let s := { s with decisions_made := s.decisions_made ++ [d.id] }
            let s := s.addEvent EventType.DecisionMade
              ("Decision: " ++ d.title ++ " - Chose: " ++ choice.label)
              (some d.id) EventVisibility.Management
            (Except.ok impact, s)

/-! ## Predicates and concrete instances used by the theorems -/

/-- The declared [0,100] bounds of a risk metric's level and mitigation. -/
def MetricInBounds (m : RiskMetric) : Prop :=
  0 ≤ m.current_level ∧ m.current_level ≤ 100 ∧
  0 ≤ m.mitigation_coverage ∧ m.mitigation_coverage ≤ 100

/-- Concrete instance of C4 (Scenario F): narrative score 25 with three buried
incidents is criminally exposed and ends in CriminalInvestigation. -/
def buriedLowInc (n : Nat) : BuriedIncident :=
  { incident_id := "buried_" ++ toString n,
    actual_severity := IncidentSeverity.High,
    reported_severity := IncidentSeverity.Low, turn_occurred := n,
    turn_disclosed := none, burial_method := "reclassified" }

def scenarioFState : GameState :=
  let s := GameState.new (Player.new "Jordan Reyes" "Initech" "Security Lead") true
  let buried := [buriedLowInc 1, buriedLowInc 2, buriedLowInc 3]
  { s with narrative := { s.narrative with score := 25, buried_incidents := buried } }

/-- Concrete instance of C5: an out-of-range delta (+150 level, −30 mitigation
on DataExposure) applied twice to the fresh risk level stays clamped in
bounds. -/
def overshootDelta : RiskDelta :=
  { changes := fun v =>
      match v with
      | RiskVector.DataExposure =>
          some { level_delta := 150, mitigation_delta := -30, trend_delta := 4 }
      | _ => none }

/-- Concrete instance of C8: detection mitigation 80 decays to 76, then to
72.2, not to the flat-10% value 72. -/
def detectionRisk : RiskLevel :=
  { RiskLevel.new with vectors := fun v =>
      if v = RiskVector.Detection then
        { RiskMetric.new with mitigation_coverage := 80 }
      else RiskMetric.new }

/-- An in-decision narrative impact that only penalises: non-negative direct
penalty and, if it buries an incident, an actual severity ranked at least the
reported one. -/
def BenignNarrativeImpact (ni? : Option NarrativeImpact) : Prop :=
  ∀ ni, ni? = some ni →
    0 ≤ ni.integrity_penalty ∧
    ∀ incId actual reported,
      ni.buries_incident = some (incId, actual, reported) →
      severityToScore reported ≤ severityToScore actual

def emptyComplianceImpact : ComplianceImpact :=
  { framework_progress := fun _ => none, new_findings := [], resolved_findings := [] }

def emptyPreview : ImpactPreview :=
  { estimated_arr_change := 0, budget_cost := 0, timeline_weeks := none,
    political_note := none, risk_indicator := RiskIndicator.Neutral,
    compliance_impact := emptyComplianceImpact, team_impact := "minimal" }

/-- Scenario C choice: requires at least 0.15 of available budget. -/
def scenarioCChoice : Choice :=
  { id := "dedicated_entity", label := "Stand up a dedicated security entity",
    description := "Requires at least 0.15 of available budget",
    impact_preview := emptyPreview, impact_data := none,
    prerequisites := { ChoicePrerequisites.default with min_budget := 0.15 },
    consequences := [] }

def scenarioCDecision : Decision :=
  { id := "scenario_c", turn := 2, title := "Budget gate", context := "Scenario C",
    choices := [scenarioCChoice], is_board_pressure := false,
    is_time_sensitive := false,
    decision_category := DecisionCategory.BudgetAllocation, prerequisites := [] }

/-- Scenario C state: 1.6 already spent, so `available = 2.5 − 1.6 − 0.8 = 0.1`. -/
def scenarioCState : GameState :=
  let s := GameState.new (Player.new "Casey Morgan" "Initech" "Analyst") false
  { s with budget := { s.budget with spent := 1.6 } }

def overreachRiskDelta : RiskDelta :=
  { changes := fun v =>
      match v with
      | RiskVector.DataExposure =>
          some { level_delta := -5, mitigation_delta := 10, trend_delta := 1 }
      | _ => none }

/-- A choice impact whose budget cost (0.5, Project) exceeds the fresh project
budget (0.4) even though the total available budget (1.7) covers it. -/
def overreachImpact : DecisionImpact :=
  { DecisionImpact.new "overreach" with
      risk_delta := overreachRiskDelta,
      business_delta := { BusinessDelta.zero with arr_change := -0.2 },
      budget_cost := 0.5, budget_category := BudgetCategory.Project }

def overreachChoice : Choice :=
  { id := "overreach", label := "Fund the full program",
    description := "Costs 0.5 from the project budget",
    impact_preview := emptyPreview, impact_data := some overreachImpact,
    prerequisites := ChoicePrerequisites.default, consequences := [] }

def overreachDecision : Decision :=
  { id := "turn_2_program", turn := 2, title := "Program funding",
    context := "The project budget cannot cover the full program",
    choices := [overreachChoice], is_board_pressure := false,
    is_time_sensitive := false,
    decision_category := DecisionCategory.BudgetAllocation, prerequisites := [] }

def freshState : GameState :=
  GameState.new (Player.new "Riley Chen" "Initech" "Director") false

/-- A choice impact whose only effect is a +50 industry-reputation delta. -/
def repBoostImpact : DecisionImpact :=
  { DecisionImpact.new "rep_boost" with reputation_impact :=
      { industry_delta := 50, board_delta := 0, team_delta := 0, vendor_delta := 0 } }

def repBoostChoice : Choice :=
  { id := "boost", label := "Accept the industry award", description := "Free PR",
    impact_preview := emptyPreview, impact_data := some repBoostImpact,
    prerequisites := ChoicePrerequisites.default, consequences := [] }

def repBoostDecision : Decision :=
  { id := "turn_3_award", turn := 3, title := "Industry recognition",
    context := "An industry body offers an award",
    choices := [repBoostChoice], is_board_pressure := false,
    is_time_sensitive := false,
    decision_category := DecisionCategory.PoliticalNavigation, prerequisites := [] }

/-- The state produced by applying the all-zero impact to the fresh state. -/
def noopAppliedState : GameState :=
  (freshState.applyDecisionImpact (DecisionImpact.new "noop")).getD freshState

/-- An impact that delays escalation by 9 turns, more than the current turn
number of a fresh state. -/
def underflowNarrativeImpact : NarrativeImpact :=
  { integrity_penalty := 5, creates_inconsistency := false,
    buries_incident := none, delays_escalation := some ("inc_x", 9),
    reason := "buy time before telling the board" }

def underflowImpact : DecisionImpact :=
  { DecisionImpact.new "underflow_delay" with
      narrative_impact := some underflowNarrativeImpact }

/-! ## Lemmas -/


theorem metricInBounds_new : MetricInBounds RiskMetric.new := by
  refine ⟨le_refl 0, ?_, le_refl 0, ?_⟩ <;> norm_num [RiskMetric.new]

theorem riskLevel_new_inbounds : ∀ v, MetricInBounds (RiskLevel.new.vectors v) :=
  fun _ => metricInBounds_new

/-- A single clamped drop `max (a - p) 0` never increases a non-negative score
and never makes it negative. -/
theorem score_drop_le (a p : ℚ) (ha : 0 ≤ a) (hp : 0 ≤ p) :
    max (a - p) 0 ≤ a ∧ 0 ≤ max (a - p) 0 :=
  ⟨max_le (by linarith) ha, le_max_right _ _⟩

theorem applyDelta_metric_inbounds (rl : RiskLevel) (d : RiskDelta)
    (h : ∀ v, MetricInBounds (rl.vectors v)) (v : RiskVector) :
    MetricInBounds ((rl.applyDelta d).vectors v) := by
  unfold RiskLevel.applyDelta
  cases hd : d.changes v with
  | none => simpa [hd] using h v
  | some c =>
    simp only [hd]
    exact ⟨le_min (le_max_right _ 0) (by norm_num), min_le_right _ _,
           le_min (le_max_right _ 0) (by norm_num), min_le_right _ _⟩

theorem applyDecay_mitigation (rl : RiskLevel) (t : Nat) (v : RiskVector)
    (h : decayEligible t ((rl.vectors v).last_incident) = true) :
    ((rl.applyDecay t).vectors v).mitigation_coverage
      = (rl.vectors v).mitigation_coverage * 0.95 := by
  cases v <;> simp [RiskLevel.applyDecay, h]

theorem applyDecay_last_incident (rl : RiskLevel) (t : Nat) (v : RiskVector) :
    ((rl.applyDecay t).vectors v).last_incident
      = (rl.vectors v).last_incident := by
  cases v <;> simp [RiskLevel.applyDecay] <;> split <;> rfl

/-! ## Claim theorems -/

/-- Claim C9: a freshly created game state (for any player and either value of
the random previous-CISO coin) has turn 1, quarter 1, phase
InheritanceDisaster, narrative score 100, and available budget
2.5 − 0.8 = 1.7. -/
theorem fresh_state_initial_values (p : Player) (coin : Bool) :
    (GameState.new p coin).turn = 1 ∧
    (GameState.new p coin).quarter = 1 ∧
    (GameState.new p coin).phase = GamePhase.InheritanceDisaster ∧
    (GameState.new p coin).narrative.score = 100 ∧
    (GameState.new p coin).budget.available = 2.5 - 0.8 ∧
    (GameState.new p coin).budget.available = 1.7 := by
  refine ⟨rfl, rfl, rfl, ?_, ?_, ?_⟩ <;>
    norm_num [GameState.new, NarrativeIntegrity.new, Budget.new, Budget.available]

/-- Claim C4: whenever `criminal_exposure()` holds (narrative score below 30
and strictly more than 2 buried incidents), `calculate_ending` returns the
CriminalInvestigation ending ahead of every other condition. -/
theorem criminal_exposure_ending (s : GameState)
    (h : s.narrative.criminalExposure = true) :
    s.calculateEnding = Ending.CriminalInvestigation := by
  unfold GameState.calculateEnding
  simp [h]


theorem criminal_exposure_ending_witness :
    scenarioFState.narrative.criminalExposure = true ∧
    scenarioFState.calculateEnding = Ending.CriminalInvestigation := by
  have h : scenarioFState.narrative.criminalExposure = true := by
    norm_num [scenarioFState, NarrativeIntegrity.criminalExposure,
              GameState.new, NarrativeIntegrity.new]
  exact ⟨h, criminal_exposure_ending scenarioFState h⟩

/-- Claim C5: starting from any risk level whose metrics are within their
declared bounds, every finite sequence of risk-delta applications keeps every
vector's level and mitigation coverage within [0,100]. -/
theorem risk_delta_sequence_preserves_bounds (rl : RiskLevel)
    (h : ∀ v, MetricInBounds (rl.vectors v)) (deltas : List RiskDelta)
    (v : RiskVector) :
    MetricInBounds ((deltas.foldl RiskLevel.applyDelta rl).vectors v) := by
  induction deltas generalizing rl with
  | nil => exact h v
  | cons d ds ih =>
      exact ih (rl.applyDelta d) (fun w => applyDelta_metric_inbounds rl d h w)


theorem risk_delta_sequence_preserves_bounds_witness :
    MetricInBounds
      (([overshootDelta, overshootDelta].foldl RiskLevel.applyDelta
          RiskLevel.new).vectors RiskVector.DataExposure) :=
  risk_delta_sequence_preserves_bounds RiskLevel.new riskLevel_new_inbounds
    [overshootDelta, overshootDelta] RiskVector.DataExposure

/-- Claim C8: for a vector eligible for decay (no incident, or the last one
more than 3 turns old), one `apply_decay` call multiplies mitigation coverage
by 0.95; two immediately successive calls compound to 0.95 × 0.95, which for a
non-zero coverage differs from a flat 10% reduction. -/
theorem decay_is_multiplicative (rl : RiskLevel) (t₁ t₂ : Nat) (v : RiskVector)
    (h₁ : decayEligible t₁ ((rl.vectors v).last_incident) = true)
    (h₂ : decayEligible t₂ ((rl.vectors v).last_incident) = true) :
    ((rl.applyDecay t₁).vectors v).mitigation_coverage
        = (rl.vectors v).mitigation_coverage * 0.95 ∧
    (((rl.applyDecay t₁).applyDecay t₂).vectors v).mitigation_coverage
        = (rl.vectors v).mitigation_coverage * 0.95 * 0.95 ∧
    ((rl.vectors v).mitigation_coverage ≠ 0 →
      (((rl.applyDecay t₁).applyDecay t₂).vectors v).mitigation_coverage
        ≠ (rl.vectors v).mitigation_coverage * 0.9) := by
  have h₂' : decayEligible t₂ (((rl.applyDecay t₁).vectors v).last_incident) = true := by
    rw [applyDecay_last_incident]; exact h₂
  have one : ((rl.applyDecay t₁).vectors v).mitigation_coverage
      = (rl.vectors v).mitigation_coverage * 0.95 :=
    applyDecay_mitigation rl t₁ v h₁
  have two : (((rl.applyDecay t₁).applyDecay t₂).vectors v).mitigation_coverage
      = (rl.vectors v).mitigation_coverage * 0.95 * 0.95 := by
    rw [applyDecay_mitigation (rl.applyDecay t₁) t₂ v h₂', one]
  refine ⟨one, two, ?_⟩
  intro hm heq
  rw [two] at heq
  have hfac : (0.95 * 0.95 : ℚ) = 0.9 := by
    have := mul_left_cancel₀ hm
      (by linarith [heq] :
        (rl.vectors v).mitigation_coverage * (0.95 * 0.95)
          = (rl.vectors v).mitigation_coverage * 0.9)
    exact this
  norm_num at hfac


theorem decay_is_multiplicative_witness :
    ((detectionRisk.applyDecay 5).vectors RiskVector.Detection).mitigation_coverage
        = (detectionRisk.vectors RiskVector.Detection).mitigation_coverage * 0.95 ∧
    (((detectionRisk.applyDecay 5).applyDecay 6).vectors
        RiskVector.Detection).mitigation_coverage
        = (detectionRisk.vectors RiskVector.Detection).mitigation_coverage * 0.95 * 0.95 ∧
    (((detectionRisk.applyDecay 5).applyDecay 6).vectors
        RiskVector.Detection).mitigation_coverage
        ≠ (detectionRisk.vectors RiskVector.Detection).mitigation_coverage * 0.9 := by
  have t := decay_is_multiplicative detectionRisk 5 6 RiskVector.Detection
    (by norm_num [detectionRisk, RiskMetric.new, decayEligible])
    (by norm_num [detectionRisk, RiskMetric.new, decayEligible])
  exact ⟨t.1, t.2.1, t.2.2 (by norm_num [detectionRisk, RiskMetric.new])⟩

theorem updateVector_other {vs : RiskVector → RiskMetric} {t w : RiskVector}
    (f : RiskMetric → RiskMetric) (h : ¬ w = t) : updateVector vs t f w = vs w := by
  simp [updateVector, h]

theorem amp_inbounds (vs : RiskVector → RiskMetric) (t : RiskVector) (k : ℚ)
    (hk : 0 ≤ k) (h : ∀ w, MetricInBounds (vs w)) (w : RiskVector) :
    MetricInBounds
      (updateVector vs t
        (fun m => { m with current_level := min (m.current_level * k) 100 }) w) := by
  unfold updateVector
  by_cases hw : w = t
  · subst hw
    simp only [if_pos rfl]
    exact ⟨le_min (mul_nonneg (h w).1 hk) (by norm_num), min_le_right _ _,
           (h w).2.2.1, (h w).2.2.2⟩
  · simp only [if_neg hw]
    exact h w

theorem cascadeAccessRule_inbounds (vs : RiskVector → RiskMetric)
    (h : ∀ w, MetricInBounds (vs w)) (w : RiskVector) :
    MetricInBounds (cascadeAccessRule vs w) := by
  unfold cascadeAccessRule
  split
  · exact amp_inbounds vs _ _ (by norm_num) h w
  · exact h w

theorem cascadeVendorRule_inbounds (vs : RiskVector → RiskMetric)
    (h : ∀ w, MetricInBounds (vs w)) (w : RiskVector) :
    MetricInBounds (cascadeVendorRule vs w) := by
  unfold cascadeVendorRule
  split
  · exact amp_inbounds vs _ _ (by norm_num) h w
  · exact h w

theorem cascadeAccessRule_detection (vs : RiskVector → RiskMetric) :
    cascadeAccessRule vs RiskVector.Detection = vs RiskVector.Detection := by
  unfold cascadeAccessRule
  split
  · exact updateVector_other _ (by decide)
  · rfl

theorem exposureSum_nonneg (vs : RiskVector → RiskMetric)
    (h : ∀ v, MetricInBounds (vs v)) : 0 ≤ exposureSum vs := by
  unfold exposureSum
  apply List.sum_nonneg
  intro x hx
  simp only [List.mem_map] at hx
  obtain ⟨v, -, rfl⟩ := hx
  have h1 : 0 ≤ (vs v).current_level := (h v).1
  have h2 : (vs v).mitigation_coverage ≤ 100 := (h v).2.2.2
  have h3 : 0 ≤ 1 - (vs v).mitigation_coverage / 100 := by linarith
  exact mul_nonneg h1 h3

/-- Claim C6: `calculate_cascade_effects` recomputes the total exposure as the
sum over all eight vectors of level × (1 − mitigation/100) scaled by the
cascade multiplier (1.5 when detection mitigation is below 40, else 1.0); for
in-bounds metrics the result is non-negative, and with the per-vector sum held
equal it is monotone non-decreasing in the multiplier. -/
theorem cascade_total_exposure (rl : RiskLevel)
    (h : ∀ v, MetricInBounds (rl.vectors v)) :
    (rl.calculateCascadeEffects).total_exposure
        = exposureSum (rl.calculateCascadeEffects).vectors
            * (rl.calculateCascadeEffects).cascade_multiplier ∧
    (rl.calculateCascadeEffects).cascade_multiplier
        = (if (rl.vectors RiskVector.Detection).mitigation_coverage < 40
           then (1.5 : ℚ) else 1.0) ∧
    0 ≤ (rl.calculateCascadeEffects).total_exposure ∧
    (∀ m₁ m₂ : ℚ, m₁ ≤ m₂ →
      exposureSum (rl.calculateCascadeEffects).vectors * m₁
        ≤ exposureSum (rl.calculateCascadeEffects).vectors * m₂) := by
  have hb : ∀ w, MetricInBounds ((rl.calculateCascadeEffects).vectors w) := by
    intro w
    exact cascadeVendorRule_inbounds _ (cascadeAccessRule_inbounds _ h) w
  have hsum : 0 ≤ exposureSum (rl.calculateCascadeEffects).vectors :=
    exposureSum_nonneg _ hb
  have hmult : 0 < (rl.calculateCascadeEffects).cascade_multiplier := by
    show 0 < cascadeMultiplierOf (cascadeAccessRule rl.vectors)
    unfold cascadeMultiplierOf
    split <;> norm_num
  refine ⟨rfl, ?_, ?_, ?_⟩
  · show cascadeMultiplierOf (cascadeAccessRule rl.vectors) = _
    unfold cascadeMultiplierOf
    rw [cascadeAccessRule_detection]
  · exact mul_nonneg hsum hmult.le
  · intro m₁ m₂ hm
    exact mul_le_mul_of_nonneg_left hm hsum

/-- Concrete instance of C6 at the fresh risk level (all metrics in bounds):
non-negative exposure and monotonicity between the two possible multiplier
values 1.0 and 1.5. -/
theorem cascade_total_exposure_witness :
    0 ≤ (RiskLevel.new.calculateCascadeEffects).total_exposure ∧
    exposureSum (RiskLevel.new.calculateCascadeEffects).vectors * 1.0
      ≤ exposureSum (RiskLevel.new.calculateCascadeEffects).vectors * 1.5 := by
  have t := cascade_total_exposure RiskLevel.new riskLevel_new_inbounds
  exact ⟨t.2.2.1, t.2.2.2 1.0 1.5 (by norm_num)⟩

theorem record_inconsistency_score_le (n : NarrativeIntegrity) (t : Nat)
    (d : String) (sev : ℚ) (h0 : 0 ≤ n.score) (hs : 0 ≤ sev) :
    (n.record_inconsistency t d sev).score ≤ n.score ∧
    0 ≤ (n.record_inconsistency t d sev).score :=
  score_drop_le n.score sev h0 hs

theorem bury_incident_score_le (n : NarrativeIntegrity) (incId : String)
    (actual reported : IncidentSeverity) (t : Nat) (m : String)
    (h0 : 0 ≤ n.score)
    (hsev : severityToScore reported ≤ severityToScore actual) :
    (n.bury_incident incId actual reported t m).score ≤ n.score ∧
    0 ≤ (n.bury_incident incId actual reported t m).score :=
  score_drop_le n.score ((severityToScore actual - severityToScore reported) * 10)
    h0 (mul_nonneg (by linarith) (by norm_num))

theorem delayEscalation_score_le (n n' : NarrativeIntegrity) (incId : String)
    (sh ac : Nat) (j : String) (h0 : 0 ≤ n.score)
    (h : n.delayEscalation incId sh ac j = some n') :
    n'.score ≤ n.score ∧ 0 ≤ n'.score := by
  unfold NarrativeIntegrity.delayEscalation at h
  split at h
  · injection h with h
    subst h
    exact score_drop_le n.score (((ac - sh : ℕ) : ℚ) * 5) h0 (by positivity)
  · exact Option.noConfusion h


theorem applyChoiceNarrative_score_le (n : NarrativeIntegrity) (t : Nat)
    (ni? : Option NarrativeImpact) (h0 : 0 ≤ n.score)
    (hben : BenignNarrativeImpact ni?) :
    (n.applyChoiceNarrative t ni?).score ≤ n.score ∧
    0 ≤ (n.applyChoiceNarrative t ni?).score := by
  cases ni? with
  | none => exact ⟨le_refl _, h0⟩
  | some ni =>
    obtain ⟨hpen, hbury⟩ := hben ni rfl
    unfold NarrativeIntegrity.applyChoiceNarrative
    have s1 := score_drop_le n.score ni.integrity_penalty h0 hpen
    set n1 : NarrativeIntegrity :=
      { n with score := max (n.score - ni.integrity_penalty) 0 } with hn1
    have hscore1 : n1.score ≤ n.score ∧ 0 ≤ n1.score := s1
    cases hbi : ni.buries_incident with
    | none =>
      cases hde : ni.delays_escalation with
      | none =>
        simp only [hbi, hde]
        exact hscore1
      | some p =>
        obtain ⟨incId, dt⟩ := p
        simp only [hbi, hde, NarrativeIntegrity.delayEscalation,
                   if_pos (Nat.le_add_right t dt), Option.getD_some]
        have s3 := score_drop_le n1.score (((t + dt - t : ℕ) : ℚ) * 5)
          hscore1.2 (by positivity)
        exact ⟨le_trans s3.1 hscore1.1, s3.2⟩
    | some triple =>
      obtain ⟨incId, actual, reported⟩ := triple
      have hsev := hbury incId actual reported hbi
      have s2 := score_drop_le n1.score
        ((severityToScore actual - severityToScore reported) * 10)
        hscore1.2 (mul_nonneg (by linarith) (by norm_num))
      set n2 := n1.bury_incident incId actual reported t ni.reason with hn2
      have hscore2 : n2.score ≤ n.score ∧ 0 ≤ n2.score :=
        ⟨le_trans s2.1 hscore1.1, s2.2⟩
      cases hde : ni.delays_escalation with
      | none =>
        simp only [hbi, hde]
        exact hscore2
      | some p =>
        obtain ⟨incId2, dt⟩ := p
        simp only [hbi, hde, NarrativeIntegrity.delayEscalation,
                   if_pos (Nat.le_add_right t dt), Option.getD_some]
        have s3 := score_drop_le n2.score (((t + dt - t : ℕ) : ℚ) * 5)
          hscore2.2 (by positivity)
        exact ⟨le_trans s3.1 hscore2.1, s3.2⟩

/-- Counterexample to claim C3 as stated: `bury_incident` with a reported
severity above the actual severity (actual Low reported as Critical) raises
the narrative score from 100 to 130 — the score is not monotonically
non-increasing for all argument values. -/
theorem narrative_score_can_increase :
    NarrativeIntegrity.new.score <
      (NarrativeIntegrity.new.bury_incident "inc_overreported"
        IncidentSeverity.Low IncidentSeverity.Critical 1 "overreporting").score := by
  norm_num [NarrativeIntegrity.new, NarrativeIntegrity.bury_incident,
            severityToScore]

/-- Claim C3 (amended): starting from a non-negative score, every narrative
operation whose arguments are genuine penalties — non-negative severity for
`record_inconsistency`, actual severity ranked at least the reported one for
`bury_incident`, any completed `delay_escalation`, and any benign in-decision
narrative effect — leaves the score no larger than before and clamped below
at 0. -/
theorem narrative_score_nonincreasing :
    (∀ (n : NarrativeIntegrity) (t : Nat) (d : String) (sev : ℚ),
        0 ≤ n.score → 0 ≤ sev →
        (n.record_inconsistency t d sev).score ≤ n.score ∧
        0 ≤ (n.record_inconsistency t d sev).score) ∧
    (∀ (n : NarrativeIntegrity) (incId : String)
        (actual reported : IncidentSeverity) (t : Nat) (m : String),
        0 ≤ n.score → severityToScore reported ≤ severityToScore actual →
        (n.bury_incident incId actual reported t m).score ≤ n.score ∧
        0 ≤ (n.bury_incident incId actual reported t m).score) ∧
    (∀ (n n' : NarrativeIntegrity) (incId : String) (sh ac : Nat) (j : String),
        0 ≤ n.score → n.delayEscalation incId sh ac j = some n' →
        n'.score ≤ n.score ∧ 0 ≤ n'.score) ∧
    (∀ (n : NarrativeIntegrity) (t : Nat) (ni? : Option NarrativeImpact),
        0 ≤ n.score → BenignNarrativeImpact ni? →
        (n.applyChoiceNarrative t ni?).score ≤ n.score ∧
        0 ≤ (n.applyChoiceNarrative t ni?).score) :=
  ⟨record_inconsistency_score_le, bury_incident_score_le,
   delayEscalation_score_le, applyChoiceNarrative_score_le⟩

/-- Concrete instance of the amended C3: burying an incident that downgrades
Critical to Low drops the fresh score without going below 0. -/
theorem narrative_score_nonincreasing_witness :
    (NarrativeIntegrity.new.bury_incident "inc_buried"
        IncidentSeverity.Critical IncidentSeverity.Low 3 "reclassified").score
      ≤ NarrativeIntegrity.new.score ∧
    0 ≤ (NarrativeIntegrity.new.bury_incident "inc_buried"
        IncidentSeverity.Critical IncidentSeverity.Low 3 "reclassified").score :=
  narrative_score_nonincreasing.2.1 NarrativeIntegrity.new "inc_buried"
    IncidentSeverity.Critical IncidentSeverity.Low 3 "reclassified"
    (by norm_num [NarrativeIntegrity.new]) (by norm_num [severityToScore])

/-- Claim C2: when a prerequisite of the found choice is violated — minimum
budget, minimum political capital, minimum team capacity, checked in that
order — `apply_choice` returns the first violated resource's specific error
and leaves the entire game state unchanged. -/
theorem apply_choice_prereq_failure (d : Decision) (choiceId : String)
    (s : GameState) (choice : Choice)
    (hfind : d.choices.find? (fun c => c.id == choiceId) = some choice) :
    ((0 < choice.prerequisites.min_budget ∧
        s.budget.available < choice.prerequisites.min_budget) →
      d.applyChoice choiceId s
        = (Except.error GameError.InsufficientBudget, s)) ∧
    (¬(0 < choice.prerequisites.min_budget ∧
        s.budget.available < choice.prerequisites.min_budget) →
      (0 < choice.prerequisites.min_political_capital ∧
        s.political_capital.total < choice.prerequisites.min_political_capital) →
      d.applyChoice choiceId s
        = (Except.error GameError.InsufficientPoliticalCapital, s)) ∧
    (¬(0 < choice.prerequisites.min_budget ∧
        s.budget.available < choice.prerequisites.min_budget) →
      ¬(0 < choice.prerequisites.min_political_capital ∧
        s.political_capital.total < choice.prerequisites.min_political_capital) →
      (0 < choice.prerequisites.min_team_capacity ∧
        s.team.availableCapacity < choice.prerequisites.min_team_capacity) →
      d.applyChoice choiceId s
        = (Except.error GameError.TeamCapacityExceeded, s)) := by
  refine ⟨fun h1 => ?_, fun h1 h2 => ?_, fun h1 h2 h3 => ?_⟩
  · simp only [Decision.applyChoice, hfind]
    rw [if_pos h1]
  · simp only [Decision.applyChoice, hfind]
    rw [if_neg h1, if_pos h2]
  · simp only [Decision.applyChoice, hfind]
    rw [if_neg h1, if_neg h2, if_pos h3]

/-- Concrete instance of C2 (Scenario C): a choice with `min_budget = 0.15`
against a state with available budget 0.1 fails with InsufficientBudget and
mutates nothing. -/
theorem apply_choice_prereq_failure_witness :
    scenarioCDecision.applyChoice "dedicated_entity" scenarioCState
      = (Except.error GameError.InsufficientBudget, scenarioCState) :=
  (apply_choice_prereq_failure scenarioCDecision "dedicated_entity"
    scenarioCState scenarioCChoice rfl).1
    (by
      constructor <;>
        norm_num [scenarioCChoice, scenarioCState, ChoicePrerequisites.default,
                  GameState.new, Budget.new, Budget.available])

/-- Claim C1: when the prerequisites of the found choice pass but the impact
has a positive budget cost that the budget refuses (category-specific or total
budget insufficient), `apply_choice` fails with InsufficientBudget after the
risk delta and the business delta have already been applied to the state —
the documented partial application. -/
theorem apply_choice_budget_partial_application (d : Decision)
    (choiceId : String) (s : GameState) (choice : Choice)
    (hfind : d.choices.find? (fun c => c.id == choiceId) = some choice)
    (hb : ¬(0 < choice.prerequisites.min_budget ∧
            s.budget.available < choice.prerequisites.min_budget))
    (hp : ¬(0 < choice.prerequisites.min_political_capital ∧
            s.political_capital.total < choice.prerequisites.min_political_capital))
    (ht : ¬(0 < choice.prerequisites.min_team_capacity ∧
            s.team.availableCapacity < choice.prerequisites.min_team_capacity))
    (hcost : 0 < (choice.impact_data.getD (DecisionImpact.new choice.id)).budget_cost)
    (hspend : s.budget.canSpend
        (choice.impact_data.getD (DecisionImpact.new choice.id)).budget_cost
        (choice.impact_data.getD (DecisionImpact.new choice.id)).budget_category
        = false) :
    d.applyChoice choiceId s =
      (Except.error GameError.InsufficientBudget,
       { s with
          risk := s.risk.applyDelta
            (choice.impact_data.getD (DecisionImpact.new choice.id)).risk_delta,
          business := s.business.applyDelta
            (choice.impact_data.getD (DecisionImpact.new choice.id)).business_delta }) := by
  simp only [Decision.applyChoice, hfind]
  rw [if_neg hb, if_neg hp, if_neg ht]
  simp only [if_pos hcost, Budget.spend, hspend, Bool.false_eq_true, if_false]

/-- Concrete instance of C1: an impact costing 0.5 from the 0.4 project budget
of a fresh state fails with InsufficientBudget while its risk and business
deltas are already committed. -/
theorem apply_choice_budget_partial_application_witness :
    overreachDecision.applyChoice "overreach" freshState =
      (Except.error GameError.InsufficientBudget,
       { freshState with
          risk := freshState.risk.applyDelta overreachImpact.risk_delta,
          business := freshState.business.applyDelta overreachImpact.business_delta }) :=
  apply_choice_budget_partial_application overreachDecision "overreach"
    freshState overreachChoice rfl
    (by norm_num [overreachChoice, ChoicePrerequisites.default])
    (by norm_num [overreachChoice, ChoicePrerequisites.default])
    (by norm_num [overreachChoice, ChoicePrerequisites.default])
    (by norm_num [overreachChoice, overreachImpact, DecisionImpact.new])
    (by
      norm_num [overreachChoice, overreachImpact, DecisionImpact.new,
                freshState, GameState.new, Budget.canSpend, Budget.new,
                Budget.available, Budget.categoryBudget])

/-- Claim C10: `delay_escalation` computes the delay with the unchecked `u32`
subtraction `actually − should_have`, so it is total exactly when
`actually ≥ should_have`; and `apply_decision_impact` passes
`turn − delay_turns` as the should-have turn, which underflows (and aborts the
whole application) whenever the recorded delay exceeds the current turn. -/
theorem delay_escalation_underflow :
    (∀ (n : NarrativeIntegrity) (incId : String) (sh ac : Nat) (j : String),
        (n.delayEscalation incId sh ac j).isSome = true ↔ sh ≤ ac) ∧
    (∀ (s : GameState) (impact : DecisionImpact) (ni : NarrativeImpact)
        (incId : String) (dt : Nat),
        impact.narrative_impact = some ni →
        ni.delays_escalation = some (incId, dt) →
        s.turn < dt →
        s.applyDecisionImpact impact = none) := by
  constructor
  · intro n incId sh ac j
    unfold NarrativeIntegrity.delayEscalation
    split
    · simp only [Option.isSome_some, true_iff]
      assumption
    · simp only [Option.isSome_none, Bool.false_eq_true, false_iff]
      omega
  · intro s impact ni incId dt h1 h2 h3
    have hnone : applyNarrativeImpactState s.narrative s.turn
        impact.narrative_impact = none := by
      rw [h1]
      simp only [applyNarrativeImpactState, h2]
      rw [if_neg (by omega)]
    simp only [GameState.applyDecisionImpact, hnone]

/-- Concrete instance of C10: applying an impact that delays escalation by 9
turns to a fresh state (turn 1) underflows and the application fails. -/
theorem delay_escalation_underflow_witness :
    freshState.applyDecisionImpact underflowImpact = none :=
  delay_escalation_underflow.2 freshState underflowImpact
    underflowNarrativeImpact "inc_x" 9 rfl rfl
    (by norm_num [freshState, GameState.new])

/-- Counterexample to claim C7 as stated: `Decision::apply_choice` applies the
reputation delta without clamping — a +50 industry delta on the fresh state
(industry standing 60) succeeds and leaves the axis at 110, outside [0,100]. -/
theorem apply_choice_reputation_unclamped :
    ((repBoostDecision.applyChoice "boost" freshState).1).isOk = true ∧
    (repBoostDecision.applyChoice "boost"
        freshState).2.player.reputation.industry_standing = 110 ∧
    ¬((repBoostDecision.applyChoice "boost"
        freshState).2.player.reputation.industry_standing ≤ 100) := by
  have hfind : repBoostDecision.choices.find? (fun c => c.id == "boost")
      = some repBoostChoice := rfl
  refine ⟨?_, ?_, ?_⟩ <;>
    norm_num [Decision.applyChoice, hfind, repBoostChoice, repBoostImpact,
      DecisionImpact.new, freshState, GameState.new, Player.new, Reputation.new,
      ChoicePrerequisites.default, Budget.new, Budget.available,
      PoliticalCapital.new, SecurityTeam.new, SecurityTeam.availableCapacity,
      GameState.addEvent, NarrativeIntegrity.applyChoiceNarrative,
      Except.isOk, Except.toBool]

/-- Claim C7 (amended): it is `GameState::apply_decision_impact` that clamps
each of the four reputation axes independently to [0,100]; after every
completed `apply_decision_impact` all four axes lie within [0,100]
(`Decision::apply_choice`, by contrast, applies the raw deltas unclamped). -/
theorem apply_decision_impact_reputation_clamped (s : GameState)
    (impact : DecisionImpact) (s' : GameState)
    (h : s.applyDecisionImpact impact = some s') :
    (0 ≤ s'.player.reputation.industry_standing ∧
       s'.player.reputation.industry_standing ≤ 100) ∧
    (0 ≤ s'.player.reputation.board_credibility ∧
       s'.player.reputation.board_credibility ≤ 100) ∧
    (0 ≤ s'.player.reputation.team_morale ∧
       s'.player.reputation.team_morale ≤ 100) ∧
    (0 ≤ s'.player.reputation.vendor_relationships ∧
       s'.player.reputation.vendor_relationships ≤ 100) := by
  unfold GameState.applyDecisionImpact at h
  cases hN : applyNarrativeImpactState s.narrative s.turn impact.narrative_impact with
  | none =>
    rw [hN] at h
    exact Option.noConfusion h
  | some narrative =>
    rw [hN] at h
    injection h with h
    subst h
    refine ⟨⟨?_, ?_⟩, ⟨?_, ?_⟩, ⟨?_, ?_⟩, ⟨?_, ?_⟩⟩ <;>
      first
        | exact le_min (le_max_right _ _) (by norm_num)
        | exact min_le_right _ _

/-- Concrete instance of the amended C7: the all-zero impact applied to the
fresh state leaves every reputation axis within [0,100]. -/
theorem apply_decision_impact_reputation_clamped_witness :
    (0 ≤ noopAppliedState.player.reputation.industry_standing ∧
       noopAppliedState.player.reputation.industry_standing ≤ 100) ∧
    (0 ≤ noopAppliedState.player.reputation.board_credibility ∧
       noopAppliedState.player.reputation.board_credibility ≤ 100) ∧
    (0 ≤ noopAppliedState.player.reputation.team_morale ∧
       noopAppliedState.player.reputation.team_morale ≤ 100) ∧
    (0 ≤ noopAppliedState.player.reputation.vendor_relationships ∧
       noopAppliedState.player.reputation.vendor_relationships ≤ 100) :=
  apply_decision_impact_reputation_clamped freshState (DecisionImpact.new "noop")
    noopAppliedState rfl

end CISO
